import Mathlib

/-!
Shallow embedding of the `WebSocketClient` class from
`src/components/ScanControlWS.tsx` (the resilient, authenticated,
event-multiplexing real-time client connection manager).

Handlers are identified by numeric ids (function references in the source).
The subscription registry (`eventHandlers: Map<string, Set<WSEventHandler>>`)
is embedded as an association list from event-type strings to duplicate-free
handler lists; timers are booleans / optional delays on the client state; the
reactive callback structure (onopen / onclose / onerror, promise
resolution and rejection, timer callbacks) is embedded as explicit state
passing, with scenario runs composing the individual callback bodies in
their source firing order.
-/

namespace WSClient

/-- Field initializer of `maxReconnectAttempts`. -/
def maxReconnectAttempts : Nat := 10

/-- Field initializer of `reconnectInterval` (start with 1 second). -/
def baseReconnectIntervalMs : Nat := 1000

/-- Field initializer of `maxReconnectInterval` (max 30 seconds). -/
def maxReconnectIntervalMs : Nat := 30000

/-- Close code used by `disconnect()`: `this.ws.close(1000, 'User initiated disconnect')`. -/
def normalCloseCode : Nat := 1000

/-- A consumer handler reference (`WSEventHandler`), identified by a number. -/
abbrev Handler := Nat

/-- The subscription registry `eventHandlers: Map<string, Set<WSEventHandler>>`,
as an association list with unique keys and duplicate-free handler lists. -/
abbrev Registry := List (String × List Handler)

/-- Method `on(eventType, handler)`: create the entry if absent, then `Set.add` the
handler (a no-op when the handler is already present). -/
def onEvent : Registry → String → Handler → Registry
  | [], t, h => [(t, [h])]
  | p :: rest, t, h =>
    if p.1 = t then (p.1, if h ∈ p.2 then p.2 else p.2 ++ [h]) :: rest
    else p :: onEvent rest t h

/-- Method `off(eventType, handler)`: if the entry exists, `Set.delete` the handler
and delete the whole entry when the set becomes empty. -/
def off : Registry → String → Handler → Registry
  | [], _, _ => []
  | p :: rest, t, h =>
    if p.1 = t then
      if p.2.erase h = [] then rest else (p.1, p.2.erase h) :: rest
    else p :: off rest t h

/-- Lookup `this.eventHandlers.get(eventType)` followed by iteration: the handler
list for a type (empty when the entry is absent). -/
def handlersFor : Registry → String → List Handler
  | [], _ => []
  | p :: rest, t => if p.1 = t then p.2 else handlersFor rest t

/-- Test `this.eventHandlers.has(eventType)`. -/
def hasEntry : Registry → String → Bool
  | [], _ => false
  | p :: rest, t => p.1 = t || hasEntry rest t

/-- Behaviour of the consumer handlers during one dispatch: each invoked
handler either returns normally or raises an exception message. -/
abbrev HandlerBehavior := Handler → Except String Unit

/-- The `handlers.forEach` loop inside `emit`: call every handler in order
inside `try { handler(data) } catch (error) { console.error(...) }` — the
exception is caught and logged and iteration continues.  Returns the list of
invoked handlers and the list of logged exception messages. -/
def dispatchAll (b : HandlerBehavior) : List Handler → List Handler × List String
  | [] => ([], [])
  | h :: rest =>
    let tail := dispatchAll b rest
    match b h with
    | Except.ok _ => (h :: tail.1, tail.2)
    | Except.error e => (h :: tail.1, e :: tail.2)

/-- Method `emit(eventType, data)`: look up the handler set for the type and run the
guarded `forEach` loop over it.  A total function: no handler exception
propagates to the caller. -/
def emit (reg : Registry) (t : String) (b : HandlerBehavior) :
    List Handler × List String :=
  dispatchAll b (handlersFor reg t)

/-- Inbound frame envelope (`WSResponse`). -/
structure WSResponse where
  type : String
  data : Option String := none
  message : Option String := none
deriving Repr, DecidableEq

/-- Method `handleMessage(message)`: `pong` frames return before dispatch
(`if (message.type === 'pong') return;`); every other frame is emitted to the
registry under its own type. -/
def handleMessage (reg : Registry) (msg : WSResponse) (b : HandlerBehavior) :
    List Handler × List String :=
  if msg.type = "pong" then ([], [])
  else emit reg msg.type b

/-- Well-formedness of the registry, maintained by the `Map`/`Set`
representation in the source: unique event-type keys and duplicate-free
handler lists. -/
def WF (reg : Registry) : Prop :=
  (reg.map Prod.fst).Nodup ∧ ∀ p ∈ reg, p.2.Nodup

instance : DecidablePred WF := fun reg =>
  inferInstanceAs (Decidable ((reg.map Prod.fst).Nodup ∧ ∀ p ∈ reg, p.2.Nodup))

/-- The mutable fields of the `WebSocketClient` class.  `ws` is the transport
handle (a numeric id standing for the `WebSocket` object, `none` = `null`);
`heartbeatOn` records whether the `setInterval` heartbeat handle exists;
`reconnectTimer` records a pending `setTimeout` reconnect handle together
with its scheduled delay in milliseconds; `connectionState` is the source's
string union `'disconnected' | 'connecting' | 'connected' | 'authenticated'`. -/
structure ClientState where
  ws : Option Nat
  token : Option String
  authenticated : Bool
  reconnectAttempts : Nat
  reconnectInterval : Nat
  heartbeatOn : Bool
  reconnectTimer : Option Nat
  connectionState : String
  eventHandlers : Registry
deriving Repr, DecidableEq

/-- Lifecycle notifications passed to `this.emit(...)` by the connection
manager (the dispatcher delivery of these is modelled by `emit` above; here
we record which emissions happen and with which payload fields). -/
inductive WSEvent where
  | errorEv
  | disconnectedEv (code : Nat)
  | reconnectingEv (attempt maxAttempts delay : Nat)
  | reconnectedEv (attempts : Nat)
  | maxReachedEv (attempts : Nat)
deriving Repr, DecidableEq

/-- Method `stopHeartbeat()`: clear the heartbeat interval handle. -/
def stopHeartbeat (s : ClientState) : ClientState :=
  { s with heartbeatOn := false }

/-- Method `startHeartbeat()`: stop any previous heartbeat, then install the
25-second ping interval. -/
def startHeartbeat (s : ClientState) : ClientState :=
  { s with heartbeatOn := true }

/-- Method `clearReconnectTimeout()`: clear the pending reconnect `setTimeout`
handle if one exists. -/
def clearReconnectTimeout (s : ClientState) : ClientState :=
  { s with reconnectTimer := none }

/-- Method `attemptReconnect()`: if `reconnectAttempts >= maxReconnectAttempts`,
emit `max_reconnect_attempts_reached` and return; otherwise increment
`reconnectAttempts`, emit `reconnecting {attempt, maxAttempts, delay}`,
clear any pending reconnect timeout and schedule a new one after
`reconnectInterval` milliseconds. -/
def attemptReconnect (s : ClientState) : ClientState × List WSEvent :=
  if s.reconnectAttempts ≥ maxReconnectAttempts then
    (s, [WSEvent.maxReachedEv s.reconnectAttempts])
  else
    let s1 := { s with reconnectAttempts := s.reconnectAttempts + 1 }
    let s2 := { clearReconnectTimeout s1 with reconnectTimer := some s1.reconnectInterval }
    (s2, [WSEvent.reconnectingEv s1.reconnectAttempts maxReconnectAttempts s1.reconnectInterval])

/-- Method `disconnect()`: clear `authenticated`, set state to `'disconnected'`,
stop the heartbeat, clear any pending reconnect timeout, and close the
transport with code 1000 when one exists.  Returns the close code passed to
`ws.close` (`none` when `this.ws` was already `null`). -/
def disconnect (s : ClientState) : ClientState × Option Nat :=
  let s1 := { s with authenticated := false, connectionState := "disconnected" }
  let s2 := clearReconnectTimeout (stopHeartbeat s1)
  match s2.ws with
  | some _ => ({ s2 with ws := none }, some normalCloseCode)
  | none => (s2, none)

/-- The `ws.onclose` handler body: snapshot `wasAuthenticated`, clear
`authenticated`, set state to `'disconnected'`, null the transport handle,
stop the heartbeat, emit `disconnected {code, reason}`, and call
`attemptReconnect()` exactly when `code !== 1000 && wasAuthenticated`.
The boolean result records whether `attemptReconnect()` was invoked. -/
def onclose (s : ClientState) (code : Nat) : ClientState × List WSEvent × Bool :=
  let wasAuthenticated := s.authenticated
  let s1 := stopHeartbeat
    { s with authenticated := false, connectionState := "disconnected", ws := none }
  if code ≠ normalCloseCode ∧ wasAuthenticated = true then
    let r := attemptReconnect s1
    (r.1, WSEvent.disconnectedEv code :: r.2, true)
  else
    (s1, [WSEvent.disconnectedEv code], false)

/-- Method `connect(token)`: resolve immediately without side effects when the
state is already `'connected'` or `'authenticated'`; otherwise store the
token, move to `'connecting'` and create a fresh transport.  The boolean
result records whether a new transport was actually opened (`false` = the
early idempotent return). -/
def connect (s : ClientState) (tok : String) (wsId : Nat) : ClientState × Bool :=
  if s.connectionState = "connected" ∨ s.connectionState = "authenticated" then
    (s, false)
  else
    ({ s with token := some tok, connectionState := "connecting", ws := some wsId }, true)

/-- The `ws.onopen` handler body (before the settle-delay callback): set
state to `'connected'` and reset `reconnectAttempts = 0`,
`reconnectInterval = 1000`; the authentication handshake runs afterwards. -/
def onopen (s : ClientState) : ClientState :=
  { s with connectionState := "connected",
           reconnectAttempts := 0,
           reconnectInterval := baseReconnectIntervalMs }

/-- The registration prefix of `authenticate()`: `this.on('auth_success',
handleAuthResponse); this.on('auth_error', handleAuthError)` (both done
before the `auth` frame is sent), with `hs` and `he` the identities of the
two closures. -/
def registerAuthListeners (s : ClientState) (hs he : Handler) : ClientState :=
  { s with eventHandlers := onEvent (onEvent s.eventHandlers "auth_success" hs) "auth_error" he }

/-- The shared unregistration performed by `handleAuthResponse` and
`handleAuthError`: `this.off('auth_success', handleAuthResponse);
this.off('auth_error', handleAuthError)`. -/
def unregisterAuthListeners (s : ClientState) (hs he : Handler) : ClientState :=
  { s with eventHandlers := off (off s.eventHandlers "auth_success" hs) "auth_error" he }

/-- The `handleAuthResponse` closure (an `auth_success` frame arrives):
clear the 5-second timer, unregister both listeners, set
`authenticated = true` and state `'authenticated'`, resolve. -/
def authSuccessOutcome (s : ClientState) (hs he : Handler) : ClientState :=
  let s1 := unregisterAuthListeners s hs he
  { s1 with authenticated := true, connectionState := "authenticated" }

/-- The `handleAuthError` closure (an `auth_error` frame arrives): clear the
5-second timer, unregister both listeners, and reject with
`data.message || 'Authentication failed'`.  The string result is the
rejection message. -/
def authErrorOutcome (s : ClientState) (hs he : Handler) (msg : Option String) :
    ClientState × String :=
  (unregisterAuthListeners s hs he, msg.getD "Authentication failed")

/-- The `authTimeout` callback (no auth response within 5000 ms): reject
with `'Authentication timeout'`.  The source callback only rejects — it does
not unregister the two listeners. -/
def authTimeoutOutcome (s : ClientState) : ClientState × String :=
  (s, "Authentication timeout")

/-- A reconnect `setTimeout` callback starts firing: the scheduled handle is
consumed. -/
def reconnectTimerFires (s : ClientState) : ClientState :=
  { s with reconnectTimer := none }

/-- The `.catch` in the reconnect timer callback after a failed `connect()`:
exponential backoff `reconnectInterval = min(reconnectInterval * 2,
maxReconnectInterval)` followed by `attemptReconnect()`. -/
def reconnectCatch (s : ClientState) : ClientState × List WSEvent :=
  attemptReconnect
    { s with reconnectInterval := min (s.reconnectInterval * 2) maxReconnectIntervalMs }

/-- One reconnect cycle in which the transport never opens: the pending
timer fires, `connect(token)` opens a fresh transport, `ws.onerror` fires
while `'connecting'` (emitting `error` and rejecting the `connect()`
promise), the failed transport closes with an abnormal code (onclose emits
`disconnected` but does not reconnect — `wasAuthenticated` is false), and
the rejection handler runs the exponential backoff and `attemptReconnect()`. -/
def failedReconnectCycle (s : ClientState) (wsId : Nat) : ClientState × List WSEvent :=
  let s0 := reconnectTimerFires s
  match s0.token with
  | none => (s0, [])
  | some tok =>
    let c := connect s0 tok wsId
    let r1 := onclose c.1 1006
    let r2 := reconnectCatch r1.1
    (r2.1, WSEvent.errorEv :: r1.2.1 ++ r2.2)

/-- Iterate `failedReconnectCycle` while a reconnect timer is pending (the
loop is self-scheduling: each failure schedules the next attempt; once no
timer is pending the loop has stopped). -/
def runFailingCycles : Nat → ClientState → ClientState × List WSEvent
  | 0, s => (s, [])
  | n + 1, s =>
    match s.reconnectTimer with
    | none => (s, [])
    | some _ =>
      let r1 := failedReconnectCycle s 1
      let r2 := runFailingCycles n r1.1
      (r2.1, r1.2 ++ r2.2)

/-- A freshly authenticated session with a fresh reconnect policy
(`attempts = 0`, `currentInterval = 1000`), as left by a successful
`connect()` + handshake. -/
def freshAuthedState (tok : String) (reg : Registry) : ClientState :=
  { ws := some 0
    token := some tok
    authenticated := true
    reconnectAttempts := 0
    reconnectInterval := baseReconnectIntervalMs
    heartbeatOn := true
    reconnectTimer := none
    connectionState := "authenticated"
    eventHandlers := reg }

/-- The `delay` payload fields of the `reconnecting` notifications in an
event trace, in order: the delays used before successive attempts. -/
def reconnectDelays : List WSEvent → List Nat
  | [] => []
  | WSEvent.reconnectingEv _ _ d :: rest => d :: reconnectDelays rest
  | _ :: rest => reconnectDelays rest

/-- Number of `reconnecting` notifications (= reconnect attempts) in a
trace. -/
def attemptCount (evs : List WSEvent) : Nat :=
  (reconnectDelays evs).length

/-- Number of `max_reconnect_attempts_reached` notifications in a trace. -/
def maxReachedCount : List WSEvent → Nat
  | [] => 0
  | WSEvent.maxReachedEv _ :: rest => maxReachedCount rest + 1
  | _ :: rest => maxReachedCount rest

/-- Deliver a sequence of transport close events (their close codes) to the
`ws.onclose` handler body.  The boolean records whether any of them invoked
`attemptReconnect()`. -/
def deliverCloses : ClientState → List Nat → ClientState × List WSEvent × Bool
  | s, [] => (s, [], false)
  | s, c :: cs =>
    let r1 := onclose s c
    let r2 := deliverCloses r1.1 cs
    (r2.1, r1.2.1 ++ r2.2.1, r1.2.2 || r2.2.2)

/-- One reconnect cycle in which the transport opens but the handshake then
fails: the timer fires, `connect(token)` opens a transport, `ws.onopen`
resets the backoff policy, the handshake registers its listeners and ends in
`auth_error`, the rejection propagates to the reconnect `.catch` (backoff +
`attemptReconnect()`), and the server then closes the unauthenticated
transport with an abnormal code. -/
def openAuthFailCycle (s : ClientState) (wsId hs he : Nat) (msg : Option String) :
    ClientState × List WSEvent :=
  let s0 := reconnectTimerFires s
  match s0.token with
  | none => (s0, [])
  | some tok =>
    let c := connect s0 tok wsId
    let s2 := onopen c.1
    let s3 := registerAuthListeners s2 hs he
    let e := authErrorOutcome s3 hs he msg
    let r1 := reconnectCatch e.1
    let r2 := onclose r1.1 1006
    (r2.1, r1.2 ++ r2.2.1)

/-- Iterate `openAuthFailCycle`. -/
def runOpenFailCycles : Nat → ClientState → ClientState × List WSEvent
  | 0, s => (s, [])
  | n + 1, s =>
    let r1 := openAuthFailCycle s 1 1 2 (some "invalid token")
    let r2 := runOpenFailCycles n r1.1
    (r2.1, r1.2 ++ r2.2)

/-- A full manual `connect()` attempt that reaches the transport-open stage
and then receives `auth_error`: `connect(token)` from a given state, the
`ws.onopen` reset, listener registration, then the `auth_error` outcome.
Returns the final state and the `connect()` rejection message. -/
def connectAuthErrorRun (s : ClientState) (tok : String) (wsId hs he : Nat)
    (msg : Option String) : ClientState × String :=
  let c := connect s tok wsId
  let s2 := onopen c.1
  let s3 := registerAuthListeners s2 hs he
  authErrorOutcome s3 hs he msg

/-- A full manual `connect()` attempt that reaches the transport-open stage
and then hits the 5000 ms handshake silence: as above but the timeout
callback rejects. -/
def connectAuthTimeoutRun (s : ClientState) (tok : String) (wsId hs he : Nat) :
    ClientState × String :=
  let c := connect s tok wsId
  let s2 := onopen c.1
  let s3 := registerAuthListeners s2 hs he
  authTimeoutOutcome s3

/-- The state of a `WebSocketClient` right after construction (the class
field initializers). -/
def initialClientState : ClientState :=
  { ws := none
    token := none
    authenticated := false
    reconnectAttempts := 0
    reconnectInterval := baseReconnectIntervalMs
    heartbeatOn := false
    reconnectTimer := none
    connectionState := "disconnected"
    eventHandlers := [] }

/-! Dispatcher lemmas -/

theorem handlersFor_onEvent (reg : Registry) (t : String) (h : Handler) :
    handlersFor (onEvent reg t h) t =
      if h ∈ handlersFor reg t then handlersFor reg t
      else handlersFor reg t ++ [h] := by
  induction reg with
  | nil => simp [onEvent, handlersFor]
  | cons p rest ih =>
    by_cases hp : p.1 = t
    · simp [onEvent, handlersFor, hp]
    · simp [onEvent, handlersFor, hp, ih]

theorem onEvent_idem (reg : Registry) (t : String) (h : Handler) :
    onEvent (onEvent reg t h) t h = onEvent reg t h := by
  induction reg with
  | nil => simp [onEvent]
  | cons p rest ih =>
    by_cases hp : p.1 = t
    · by_cases hm : h ∈ p.2 <;> simp [onEvent, hp, hm]
    · simp [onEvent, hp, ih]

theorem handlersFor_nodup (reg : Registry) (t : String)
    (hnd : ∀ p ∈ reg, p.2.Nodup) : (handlersFor reg t).Nodup := by
  induction reg with
  | nil => simp [handlersFor]
  | cons p rest ih =>
    by_cases hp : p.1 = t
    · simpa [handlersFor, hp] using hnd p (by simp)
    · exact by simpa [handlersFor, hp] using ih fun q hq => hnd q (by simp [hq])

theorem count_handlersFor_onEvent (reg : Registry) (t : String) (h : Handler)
    (hnd : ∀ p ∈ reg, p.2.Nodup) :
    (handlersFor (onEvent reg t h) t).count h = 1 := by
  rw [handlersFor_onEvent]
  by_cases hm : h ∈ handlersFor reg t
  · simpa [hm] using List.count_eq_one_of_mem (handlersFor_nodup reg t hnd) hm
  · simp [hm, List.count_append, List.count_eq_zero_of_not_mem hm]

theorem off_of_not_key (reg : Registry) (t : String) (h : Handler)
    (hk : ∀ q ∈ reg, q.1 ≠ t) : off reg t h = reg := by
  induction reg with
  | nil => rfl
  | cons p rest ih =>
    have hp : p.1 ≠ t := hk p (by simp)
    simp [off, hp, ih fun q hq => hk q (by simp [hq])]

theorem hasEntry_eq_false_of_not_key (reg : Registry) (t : String)
    (hk : ∀ q ∈ reg, q.1 ≠ t) : hasEntry reg t = false := by
  induction reg with
  | nil => rfl
  | cons p rest ih =>
    have hp : p.1 ≠ t := hk p (by simp)
    simp [hasEntry, hp, ih fun q hq => hk q (by simp [hq])]

theorem off_idem (reg : Registry) (t : String) (h : Handler)
    (hkeys : (reg.map Prod.fst).Nodup) (hnd : ∀ p ∈ reg, p.2.Nodup) :
    off (off reg t h) t h = off reg t h := by
  induction reg with
  | nil => rfl
  | cons p rest ih =>
    rw [List.map_cons, List.nodup_cons] at hkeys
    obtain ⟨hnotin, htail⟩ := hkeys
    by_cases hp : p.1 = t
    · have hrest_ne : ∀ q ∈ rest, q.1 ≠ t := by
        intro q hq hqt
        apply hnotin
        have hmm : q.1 ∈ rest.map Prod.fst := List.mem_map_of_mem Prod.fst hq
        rwa [hqt, ← hp] at hmm
      by_cases he : p.2.erase h = []
      · simp [off, hp, he, off_of_not_key rest t h hrest_ne]
      · have hnodup_p : p.2.Nodup := hnd p (by simp)
        have hnm : h ∉ p.2.erase h := fun hmem =>
          ((hnodup_p.mem_erase_iff).1 hmem).1 rfl
        have he2 : (p.2.erase h).erase h = p.2.erase h := List.erase_of_not_mem hnm
        simp [off, hp, he, he2]
    · simp [off, hp, ih htail fun q hq => hnd q (by simp [hq])]

theorem off_deletes_entry (reg : Registry) (t : String) (h : Handler)
    (hkeys : (reg.map Prod.fst).Nodup) (hone : handlersFor reg t = [h]) :
    hasEntry (off reg t h) t = false := by
  induction reg with
  | nil => simp [handlersFor] at hone
  | cons p rest ih =>
    rw [List.map_cons, List.nodup_cons] at hkeys
    obtain ⟨hnotin, htail⟩ := hkeys
    by_cases hp : p.1 = t
    · have hp2 : p.2 = [h] := by simpa [handlersFor, hp] using hone
      have he : p.2.erase h = [] := by simp [hp2]
      have hrest_ne : ∀ q ∈ rest, q.1 ≠ t := by
        intro q hq hqt
        apply hnotin
        have hmm : q.1 ∈ rest.map Prod.fst := List.mem_map_of_mem Prod.fst hq
        rwa [hqt, ← hp] at hmm
      simp [off, hp, he, hasEntry_eq_false_of_not_key rest t hrest_ne]
    · have hone2 : handlersFor rest t = [h] := by simpa [handlersFor, hp] using hone
      simp [off, hasEntry, hp, ih htail hone2]

theorem dispatchAll_fst (b : HandlerBehavior) (hs : List Handler) :
    (dispatchAll b hs).1 = hs := by
  induction hs with
  | nil => rfl
  | cons h rest ih =>
    cases hb : b h <;> simp [dispatchAll, hb, ih]

theorem emit_fst (reg : Registry) (t : String) (b : HandlerBehavior) :
    (emit reg t b).1 = handlersFor reg t :=
  dispatchAll_fst b _

theorem dispatchAll_logs (b : HandlerBehavior) (hs : List Handler)
    (h : Handler) (e : String) (hm : h ∈ hs) (he : b h = Except.error e) :
    e ∈ (dispatchAll b hs).2 := by
  induction hs with
  | nil => simp at hm
  | cons x rest ih =>
    rcases List.mem_cons.1 hm with hx | hx
    · subst hx
      simp [dispatchAll, he]
    · cases hb : b x <;> simp [dispatchAll, hb, ih hx]

/-! Claim theorems for the Event Dispatcher -/

/-- C7: registering the same handler twice for the same event type is a
no-op for delivery (the handler is invoked exactly once per emitted event of
that type), `off` is idempotent, and `off` deletes the registry entry for a
type when its handler set becomes empty. -/
theorem c7_registry_set_semantics (reg : Registry) (t : String) (h : Handler)
    (hw : WF reg) :
    (∀ b : HandlerBehavior,
      (emit (onEvent (onEvent reg t h) t h) t b).1.count h = 1) ∧
    off (off reg t h) t h = off reg t h ∧
    (handlersFor reg t = [h] → hasEntry (off reg t h) t = false) := by
  refine ⟨fun b => ?_, off_idem reg t h hw.1 hw.2, fun hone => off_deletes_entry reg t h hw.1 hone⟩
  rw [emit_fst, onEvent_idem]
  exact count_handlersFor_onEvent reg t h hw.2

/-- A concrete registry used to instantiate `c7_registry_set_semantics`. -/
def c7reg : Registry := [("progress", [5]), ("scan_status", [3, 4])]

/-- Witness for C7 at a concrete registry. -/
theorem c7_registry_set_semantics_witness :
    WF c7reg ∧ off (off c7reg "progress" 7) "progress" 7 = off c7reg "progress" 7 :=
  ⟨by decide, (c7_registry_set_semantics c7reg "progress" 7 (by decide)).2.1⟩

/-- C8: an exception thrown by one handler during `emit` is caught and
logged, every handler registered for the type still runs (the invocation
list equals the whole handler set, whatever the handler behaviour), and
delivery for any other event type is unaffected; `emit` is a total function,
so it never propagates a handler exception to its caller. -/
theorem c8_emit_isolates_handler_failures (reg : Registry) (t : String)
    (b : HandlerBehavior) (h : Handler) (e : String)
    (hmem : h ∈ handlersFor reg t) (herr : b h = Except.error e) :
    (emit reg t b).1 = handlersFor reg t ∧
    e ∈ (emit reg t b).2 ∧
    ∀ t2 b2, (emit reg t2 b2).1 = handlersFor reg t2 :=
  ⟨emit_fst reg t b, dispatchAll_logs b _ h e hmem herr,
    fun t2 b2 => emit_fst reg t2 b2⟩

/-- A concrete registry used to instantiate `c8_emit_isolates_handler_failures`. -/
def c8reg : Registry := [("progress", [1, 2]), ("scan_status", [3])]

/-- A handler behaviour where handler 1 throws. -/
def c8behavior : HandlerBehavior :=
  fun n => if n = 1 then Except.error "boom" else Except.ok ()

/-- Witness for C8 at a concrete registry and a throwing first handler. -/
theorem c8_emit_isolates_handler_failures_witness :
    (1 ∈ handlersFor c8reg "progress") ∧
    (emit c8reg "progress" c8behavior).1 = handlersFor c8reg "progress" :=
  ⟨by decide,
    (c8_emit_isolates_handler_failures c8reg "progress" c8behavior 1 "boom"
      (by decide) rfl).1⟩

/-- C9: an inbound `pong` frame is intercepted before dispatch: whatever the
registry and handler behaviour, `handleMessage` on a `pong` frame invokes no
consumer-registered handler for any event type and logs nothing. -/
theorem c9_pong_never_dispatched (reg : Registry) (b : HandlerBehavior)
    (d m : Option String) :
    handleMessage reg { type := "pong", data := d, message := m } b = ([], []) :=
  rfl

/-! Connection manager lemmas -/

theorem attemptReconnect_connectionState (s : ClientState) :
    (attemptReconnect s).1.connectionState = s.connectionState := by
  unfold attemptReconnect
  split <;> simp [clearReconnectTimeout]

theorem attemptReconnect_heartbeat (s : ClientState) :
    (attemptReconnect s).1.heartbeatOn = s.heartbeatOn := by
  unfold attemptReconnect
  split <;> simp [clearReconnectTimeout]

theorem attemptReconnect_authenticated (s : ClientState) :
    (attemptReconnect s).1.authenticated = s.authenticated := by
  unfold attemptReconnect
  split <;> simp [clearReconnectTimeout]

theorem attemptReconnect_timer (s : ClientState) :
    (attemptReconnect s).1.reconnectTimer =
      if s.reconnectAttempts ≥ maxReconnectAttempts then s.reconnectTimer
      else some s.reconnectInterval := by
  unfold attemptReconnect
  split <;> simp_all [clearReconnectTimeout]

/-- After any state with `authenticated = false`, delivering any sequence of
transport close events to the `onclose` handler body never invokes
`attemptReconnect()`, emits no `reconnecting` notification, and leaves the
pending-reconnect-timer field untouched. -/
theorem deliverCloses_no_reconnect (codes : List Nat) (s : ClientState)
    (h : s.authenticated = false) :
    (deliverCloses s codes).2.2 = false ∧
    (deliverCloses s codes).1.reconnectTimer = s.reconnectTimer ∧
    (deliverCloses s codes).1.authenticated = false ∧
    attemptCount (deliverCloses s codes).2.1 = 0 := by
  induction codes generalizing s with
  | nil => simp [deliverCloses, attemptCount, reconnectDelays, h]
  | cons c cs ih =>
    have hcond : ¬(c ≠ normalCloseCode ∧ s.authenticated = true) := by
      simp [h]
    obtain ⟨i1, i2, i3, i4⟩ :=
      ih (stopHeartbeat
        { s with authenticated := false, connectionState := "disconnected", ws := none })
        (by simp [stopHeartbeat])
    simp [deliverCloses, onclose, hcond, stopHeartbeat, attemptCount,
      reconnectDelays] at i1 i2 i3 i4 ⊢
    exact ⟨i1, by simpa using i2, i3, i4⟩

/-- C2: after `disconnect()` returns — which synchronously stops the
heartbeat, clears any pending reconnect timer, clears `authenticated`, and
closes the transport (when one exists) with the sentinel normal-closure code
1000 — no subsequent transport close event of any code ever invokes
`attemptReconnect()` or schedules a reconnect timer; and close code 1000 is
indeed the code the close handler uses to suppress auto-reconnect. -/
theorem c2_disconnect_prevents_reconnect (s : ClientState) (codes : List Nat) :
    (disconnect s).1.heartbeatOn = false ∧
    (disconnect s).1.reconnectTimer = none ∧
    (disconnect s).1.authenticated = false ∧
    (disconnect s).1.connectionState = "disconnected" ∧
    (disconnect s).2 = s.ws.map (fun _ => normalCloseCode) ∧
    (deliverCloses (disconnect s).1 codes).2.2 = false ∧
    attemptCount (deliverCloses (disconnect s).1 codes).2.1 = 0 ∧
    (deliverCloses (disconnect s).1 codes).1.reconnectTimer = none ∧
    ∀ s2 : ClientState, (onclose s2 normalCloseCode).2.2 = false := by
  have hd1 : (disconnect s).1.heartbeatOn = false := by
    unfold disconnect
    cases s.ws <;> simp [stopHeartbeat, clearReconnectTimeout]
  have hd2 : (disconnect s).1.reconnectTimer = none := by
    unfold disconnect
    cases s.ws <;> simp [stopHeartbeat, clearReconnectTimeout]
  have hd3 : (disconnect s).1.authenticated = false := by
    unfold disconnect
    cases s.ws <;> simp [stopHeartbeat, clearReconnectTimeout]
  have hd4 : (disconnect s).1.connectionState = "disconnected" := by
    unfold disconnect
    cases s.ws <;> simp [stopHeartbeat, clearReconnectTimeout]
  have hd5 : (disconnect s).2 = s.ws.map (fun _ => normalCloseCode) := by
    unfold disconnect
    cases s.ws <;> simp [stopHeartbeat, clearReconnectTimeout]
  obtain ⟨g1, g2, g3, g4⟩ := deliverCloses_no_reconnect codes (disconnect s).1 hd3
  refine ⟨hd1, hd2, hd3, hd4, hd5, g1, g4, by rw [g2, hd2], fun s2 => ?_⟩
  have hcond : ¬(normalCloseCode ≠ normalCloseCode ∧ s2.authenticated = true) := by
    simp
  simp [onclose, hcond]

/-- C5 counterexample: the connection-state value after an unexpected close
of an authenticated session is `'disconnected'`, not `'reconnecting'`
(the implementation's state union has no `'reconnecting'` member). -/
theorem c5_counterexample :
    (onclose (freshAuthedState "tok" []) 1006).1.connectionState = "disconnected" ∧
    (onclose (freshAuthedState "tok" []) 1006).1.connectionState ≠ "reconnecting" := by
  refine ⟨rfl, by decide⟩

/-- C5 (amended): for every transport close with a non-user-initiated code
while `authenticated`, the manager moves to `'disconnected'` (one of the
four states of the implementation's union), stops the heartbeat, emits a
`disconnected` notification, and invokes the Reconnection Scheduler. -/
theorem c5_unexpected_close_transitions (s : ClientState) (c : Nat)
    (h1 : s.authenticated = true) (h2 : c ≠ normalCloseCode) :
    (onclose s c).1.connectionState = "disconnected" ∧
    (onclose s c).1.heartbeatOn = false ∧
    WSEvent.disconnectedEv c ∈ (onclose s c).2.1 ∧
    (onclose s c).2.2 = true ∧
    (onclose s c).1.connectionState ∈
      (["disconnected", "connecting", "connected", "authenticated"] : List String) := by
  have hcond : c ≠ normalCloseCode ∧ s.authenticated = true := ⟨h2, h1⟩
  refine ⟨?_, ?_, ?_, ?_, ?_⟩
  · simp only [onclose, if_pos hcond]
    rw [attemptReconnect_connectionState]
    simp [stopHeartbeat]
  · simp only [onclose, if_pos hcond]
    rw [attemptReconnect_heartbeat]
    simp [stopHeartbeat]
  · simp [onclose, if_pos hcond]
  · simp [onclose, if_pos hcond]
  · simp only [onclose, if_pos hcond]
    rw [attemptReconnect_connectionState]
    simp [stopHeartbeat]

/-- Witness for C5 (amended) at a concrete authenticated session and close
code 1006. -/
theorem c5_unexpected_close_transitions_witness :
    (freshAuthedState "tok" []).authenticated = true ∧
    (1006 : Nat) ≠ normalCloseCode ∧
    (onclose (freshAuthedState "tok" []) 1006).2.2 = true :=
  ⟨rfl, by decide,
    (c5_unexpected_close_transitions (freshAuthedState "tok" []) 1006 rfl
      (by decide)).2.2.2.1⟩

/-- The manager's state while a reconnect timer is pending. -/
def c4PendingState : ClientState :=
  { initialClientState with token := some "tok", reconnectTimer := some 1000 }

/-- C4 counterexample: a manual `connect()` issued while a reconnect timer
is pending leaves that timer pending — `connect` never touches the
reconnect timer field. -/
theorem c4_counterexample :
    (connect c4PendingState "tok2" 5).1.reconnectTimer = some 1000 ∧
    (some 1000 : Option Nat) ≠ none := by
  refine ⟨rfl, by decide⟩

/-- C4 (amended): a manual `connect()` does not cancel a pending reconnect
timer (the timer field is preserved by `connect` in both of its branches);
the pending reconnect timer is cleared by `disconnect()`, and
`attemptReconnect()` replaces it when scheduling the next attempt. -/
theorem c4_connect_keeps_pending_timer (s : ClientState) (tok : String) (wsId : Nat) :
    (connect s tok wsId).1.reconnectTimer = s.reconnectTimer ∧
    (disconnect s).1.reconnectTimer = none ∧
    ∀ s2 : ClientState, (attemptReconnect s2).1.reconnectTimer =
      if s2.reconnectAttempts ≥ maxReconnectAttempts then s2.reconnectTimer
      else some s2.reconnectInterval := by
  refine ⟨?_, ?_, fun s2 => attemptReconnect_timer s2⟩
  · unfold connect
    split <;> simp
  · unfold disconnect
    cases s.ws <;> simp [stopHeartbeat, clearReconnectTimeout]

/-- C3 counterexample: a `connect()` attempt on a fresh client that opens
the transport and then receives `auth_error "invalid token"` rejects with
that message, but leaves the connection state `'connected'`, not
`'disconnected'` — no code path of the handshake failure resets the state
string. -/
theorem c3_counterexample :
    (connectAuthErrorRun initialClientState "tok" 1 1 2 (some "invalid token")).2
      = "invalid token" ∧
    (connectAuthErrorRun initialClientState "tok" 1 1 2 (some "invalid token")).1.connectionState
      = "connected" ∧
    (connectAuthErrorRun initialClientState "tok" 1 1 2 (some "invalid token")).1.connectionState
      ≠ "disconnected" := by
  refine ⟨rfl, rfl, by decide⟩

/-- C3 (amended): for every `connect(token)` whose handshake receives
`auth_error` or hits the 5000 ms silence, the `connect()` promise rejects —
carrying the server-supplied message when present, `'Authentication failed'`
otherwise, `'Authentication timeout'` on silence — zero reconnect attempts
are scheduled (the reconnect timer stays clear and the attempt counter stays
0), but the connection state is left `'connected'` (the transport is still
open); it becomes `'disconnected'` only when the transport later closes. -/
theorem c3_handshake_failure_rejects (s : ClientState) (tok m : String)
    (wsId hs he : Nat)
    (h1 : s.connectionState = "disconnected") (h2 : s.reconnectTimer = none) :
    (connectAuthErrorRun s tok wsId hs he (some m)).2 = m ∧
    (connectAuthErrorRun s tok wsId hs he none).2 = "Authentication failed" ∧
    (connectAuthTimeoutRun s tok wsId hs he).2 = "Authentication timeout" ∧
    (connectAuthErrorRun s tok wsId hs he (some m)).1.connectionState = "connected" ∧
    (connectAuthTimeoutRun s tok wsId hs he).1.connectionState = "connected" ∧
    (connectAuthErrorRun s tok wsId hs he (some m)).1.reconnectTimer = none ∧
    (connectAuthTimeoutRun s tok wsId hs he).1.reconnectTimer = none ∧
    (connectAuthErrorRun s tok wsId hs he (some m)).1.reconnectAttempts = 0 ∧
    (connectAuthTimeoutRun s tok wsId hs he).1.reconnectAttempts = 0 := by
  have hcond : ¬(s.connectionState = "connected" ∨ s.connectionState = "authenticated") := by
    rw [h1]
    decide
  refine ⟨?_, ?_, ?_, ?_, ?_, ?_, ?_, ?_, ?_⟩ <;>
    simp [connectAuthErrorRun, connectAuthTimeoutRun, connect, onopen,
      registerAuthListeners, authErrorOutcome, authTimeoutOutcome,
      unregisterAuthListeners, hcond, h2]

/-- Witness for C3 (amended) at a fresh client. -/
theorem c3_handshake_failure_rejects_witness :
    initialClientState.connectionState = "disconnected" ∧
    initialClientState.reconnectTimer = none ∧
    (connectAuthTimeoutRun initialClientState "tok" 1 1 2).2 = "Authentication timeout" :=
  ⟨rfl, rfl,
    (c3_handshake_failure_rejects initialClientState "tok" "m" 1 1 2 rfl rfl).2.2.1⟩

/-- The client state mid-handshake: a fresh client whose `connect("tok")`
opened transport 1, whose `ws.onopen` ran, and whose `authenticate()` has
registered its two response listeners (closures 1 and 2) before sending the
`auth` frame. -/
def authLeakState : ClientState :=
  registerAuthListeners (onopen (connect initialClientState "tok" 1).1) 1 2

/-- C6: the handshake registers both response listeners before sending the
`auth` frame, and the `auth_success` / `auth_error` outcomes unregister both
— but the 5000 ms timeout outcome does not: the `authTimeout` callback only
rejects, leaving `handleAuthResponse` and `handleAuthError` registered.
The registry is therefore NOT left as the handshake found it on the timeout
outcome, contradicting the stated leak-freedom across repeated attempts. -/
theorem c6_timeout_leaks_listeners :
    (authTimeoutOutcome authLeakState).1.eventHandlers
      = [("auth_success", [1]), ("auth_error", [2])] ∧
    (authTimeoutOutcome authLeakState).1.eventHandlers ≠ initialClientState.eventHandlers ∧
    (authSuccessOutcome authLeakState 1 2).eventHandlers = initialClientState.eventHandlers ∧
    (authErrorOutcome authLeakState 1 2 (some "bad")).1.eventHandlers
      = initialClientState.eventHandlers := by
  refine ⟨rfl, by decide, rfl, rfl⟩

/-! Reconnection Scheduler lemmas -/

theorem runFailingCycles_stopped (n : Nat) (s : ClientState)
    (h : s.reconnectTimer = none) : runFailingCycles n s = (s, []) := by
  cases n with
  | zero => rfl
  | succ m => simp [runFailingCycles, h]

theorem runFailingCycles_add (m n : Nat) (s : ClientState) :
    runFailingCycles (m + n) s =
      ((runFailingCycles n (runFailingCycles m s).1).1,
        (runFailingCycles m s).2 ++ (runFailingCycles n (runFailingCycles m s).1).2) := by
  induction m generalizing s with
  | zero => simp [runFailingCycles]
  | succ k ih =>
    have harith : k + 1 + n = (k + n) + 1 := by omega
    rw [harith]
    cases ht : s.reconnectTimer with
    | none =>
      simp [runFailingCycles, ht, runFailingCycles_stopped n s ht]
    | some d =>
      simp only [runFailingCycles, ht]
      rw [ih]
      simp [List.append_assoc]

/-- C1 counterexample: a run started from a fresh policy in which every
reconnect cycle fails — but fails after the transport opens (the handshake
is then rejected) — performs 12 attempts with delays
`1000, 2000, 2000, …` and never emits `max_reconnect_attempts_reached`:
the delays are not the capped doubling sequence and more than 10 attempts
occur with no exhaustion notification. -/
theorem c1_counterexample :
    attemptCount ((onclose (freshAuthedState "tok" []) 1006).2.1 ++
        (runOpenFailCycles 11 (onclose (freshAuthedState "tok" []) 1006).1).2) = 12 ∧
    maxReachedCount ((onclose (freshAuthedState "tok" []) 1006).2.1 ++
        (runOpenFailCycles 11 (onclose (freshAuthedState "tok" []) 1006).1).2) = 0 ∧
    reconnectDelays ((onclose (freshAuthedState "tok" []) 1006).2.1 ++
        (runOpenFailCycles 11 (onclose (freshAuthedState "tok" []) 1006).1).2) ≠
      [1000, 2000, 4000, 8000, 16000, 30000, 30000, 30000, 30000, 30000] := by
  refine ⟨rfl, rfl, by decide⟩

/-- C1 (amended): for every run of the Reconnection Scheduler started from a
fresh policy (`attempts = 0`, `currentInterval = 1000`) in which every
reconnect cycle fails without the transport opening (so the `onopen` policy
reset never runs), the delays used before successive attempts are
`1000, 2000, 4000, 8000, 16000, 30000, 30000, 30000, 30000, 30000`
(doubling, capped at 30000), exactly 10 attempts occur, exactly one
`max_reconnect_attempts_reached` notification is emitted, and the loop stops
(no reconnect timer remains pending, whatever extra time `k` elapses).
Token value and subscription registry are never inspected by the scheduler;
the run is stated at a fixed token and registry. -/
theorem c1_backoff_exhaustion (k : Nat) :
    reconnectDelays ((onclose (freshAuthedState "tok" []) 1006).2.1 ++
        (runFailingCycles (10 + k) (onclose (freshAuthedState "tok" []) 1006).1).2) =
      [1000, 2000, 4000, 8000, 16000, 30000, 30000, 30000, 30000, 30000] ∧
    attemptCount ((onclose (freshAuthedState "tok" []) 1006).2.1 ++
        (runFailingCycles (10 + k) (onclose (freshAuthedState "tok" []) 1006).1).2) = 10 ∧
    maxReachedCount ((onclose (freshAuthedState "tok" []) 1006).2.1 ++
        (runFailingCycles (10 + k) (onclose (freshAuthedState "tok" []) 1006).1).2) = 1 ∧
    (runFailingCycles (10 + k) (onclose (freshAuthedState "tok" []) 1006).1).1.reconnectTimer
      = none := by
  have hstop :
      (runFailingCycles 10 (onclose (freshAuthedState "tok" []) 1006).1).1.reconnectTimer
        = none := rfl
  rw [runFailingCycles_add 10 k, runFailingCycles_stopped k _ hstop]
  exact ⟨rfl, rfl, rfl, rfl⟩

/-! Backoff-reset lemmas for onopen -/

theorem maxReachedCount_append (l1 l2 : List WSEvent) :
    maxReachedCount (l1 ++ l2) = maxReachedCount l1 + maxReachedCount l2 := by
  induction l1 with
  | nil => simp [maxReachedCount]
  | cons ev rest ih =>
    cases ev with
    | errorEv => simp [maxReachedCount, ih]
    | disconnectedEv c => simp [maxReachedCount, ih]
    | reconnectingEv a b d => simp [maxReachedCount, ih]
    | reconnectedEv a => simp [maxReachedCount, ih]
    | maxReachedEv a =>
      simp [maxReachedCount, ih]
      omega

theorem openAuthFailCycle_fields (s : ClientState) (tok : String)
    (h1 : s.token = some tok) (h2 : s.authenticated = false)
    (h3 : s.connectionState = "disconnected") :
    (openAuthFailCycle s 1 1 2 (some "invalid token")).1.token = some tok ∧
    (openAuthFailCycle s 1 1 2 (some "invalid token")).1.authenticated = false ∧
    (openAuthFailCycle s 1 1 2 (some "invalid token")).1.connectionState = "disconnected" ∧
    (openAuthFailCycle s 1 1 2 (some "invalid token")).1.reconnectAttempts = 1 ∧
    (openAuthFailCycle s 1 1 2 (some "invalid token")).1.reconnectInterval = 2000 ∧
    (openAuthFailCycle s 1 1 2 (some "invalid token")).1.reconnectTimer = some 2000 ∧
    (openAuthFailCycle s 1 1 2 (some "invalid token")).2 =
      [WSEvent.reconnectingEv 1 maxReconnectAttempts 2000, WSEvent.disconnectedEv 1006] := by
  have hc1 : ¬(("disconnected" : String) = "connected" ∨
      ("disconnected" : String) = "authenticated") := by decide
  refine ⟨?_, ?_, ?_, ?_, ?_, ?_, ?_⟩ <;>
    simp [openAuthFailCycle, reconnectTimerFires, h1, h2, h3, connect, onopen,
      registerAuthListeners, authErrorOutcome, unregisterAuthListeners,
      reconnectCatch, attemptReconnect, clearReconnectTimeout, onclose,
      stopHeartbeat, hc1, maxReconnectAttempts, maxReconnectIntervalMs,
      baseReconnectIntervalMs, normalCloseCode]

theorem runOpenFailCycles_no_exhaustion (n : Nat) :
    ∀ (s : ClientState) (tok : String), s.token = some tok →
      s.authenticated = false → s.connectionState = "disconnected" →
      maxReachedCount (runOpenFailCycles n s).2 = 0 ∧
      (runOpenFailCycles n s).1.token = some tok ∧
      (runOpenFailCycles n s).1.authenticated = false ∧
      (runOpenFailCycles n s).1.connectionState = "disconnected" ∧
      (n ≠ 0 → (runOpenFailCycles n s).1.reconnectAttempts = 1) := by
  induction n with
  | zero =>
    intro s tok h1 h2 h3
    simp [runOpenFailCycles, maxReachedCount, h1, h2, h3]
  | succ k ih =>
    intro s tok h1 h2 h3
    obtain ⟨f1, f2, f3, f4, f5, f6, f7⟩ := openAuthFailCycle_fields s tok h1 h2 h3
    obtain ⟨g1, g2, g3, g4, g5⟩ := ih _ tok f1 f2 f3
    refine ⟨?_, ?_, ?_, ?_, ?_⟩
    · simp [runOpenFailCycles, maxReachedCount_append, f7, g1, maxReachedCount]
    · simpa [runOpenFailCycles] using g2
    · simpa [runOpenFailCycles] using g3
    · simpa [runOpenFailCycles] using g4
    · intro _
      cases k with
      | zero => simpa [runOpenFailCycles] using f4
      | succ m => simpa [runOpenFailCycles] using g5 (by omega)

/-- C10: the `ws.onopen` handler sets `reconnectAttempts = 0` and
`reconnectInterval = 1000` (before the settle-delay callback runs the
authentication handshake); consequently a reconnect cycle in which the
transport opens but the handshake then fails leaves the policy at
`attempts = 1`, `interval = 2000` — restarted from scratch rather than
progressing — and no number of such cycles ever emits the
`max_reconnect_attempts_reached` exhaustion notification. -/
theorem c10_onopen_resets_backoff (s : ClientState) (tok : String) (n : Nat)
    (h1 : s.token = some tok) (h2 : s.authenticated = false)
    (h3 : s.connectionState = "disconnected") :
    ((onopen s).reconnectAttempts = 0 ∧
      (onopen s).reconnectInterval = baseReconnectIntervalMs) ∧
    ((openAuthFailCycle s 1 1 2 (some "invalid token")).1.reconnectAttempts = 1 ∧
      (openAuthFailCycle s 1 1 2 (some "invalid token")).1.reconnectInterval = 2000 ∧
      maxReachedCount (openAuthFailCycle s 1 1 2 (some "invalid token")).2 = 0) ∧
    maxReachedCount (runOpenFailCycles n s).2 = 0 := by
  obtain ⟨f1, f2, f3, f4, f5, f6, f7⟩ := openAuthFailCycle_fields s tok h1 h2 h3
  obtain ⟨g1, _, _, _, _⟩ := runOpenFailCycles_no_exhaustion n s tok h1 h2 h3
  exact ⟨⟨by simp [onopen], by simp [onopen]⟩,
    ⟨f4, f5, by simp [f7, maxReachedCount]⟩, g1⟩

/-- Witness for C10 at the state left by an unexpected close of a fresh
authenticated session. -/
theorem c10_onopen_resets_backoff_witness :
    (onclose (freshAuthedState "tok" []) 1006).1.token = some "tok" ∧
    (onclose (freshAuthedState "tok" []) 1006).1.authenticated = false ∧
    (onclose (freshAuthedState "tok" []) 1006).1.connectionState = "disconnected" ∧
    maxReachedCount
      (runOpenFailCycles 3 (onclose (freshAuthedState "tok" []) 1006).1).2 = 0 :=
  ⟨rfl, rfl, rfl,
    (c10_onopen_resets_backoff _ "tok" 3 rfl rfl rfl).2.2⟩

end WSClient
